import Mathlib

/-!
Verification of the train-signalling firmware (src/signals.rs, src/commands.rs,
src/main.rs).  Signals are embedded shallowly: a signal structure mirrors the
Rust struct (optional lamps are `Option` pins), and `switch_to_aspect` returns
the ordered list of pin writes it performs, or `none` when the Rust code
panics (every panic in the source fires before any pin write of the offending
call).  Pin-level hardware errors are infallible on the target board
(`unwrap_infallible` in main.rs), so the `Result` error path is dead and not
modelled.
-/

namespace TrainSignalling

/-- State written to an output pin (embedded_hal::digital::PinState). -/
inductive PinState
  | low
  | high
deriving DecidableEq, Fintype

/-- Lamp pins of an HV main signal (fields of HVMainSignal, signals.rs 88-97). -/
inductive HVMainLamp
  | red1
  | yellow
  | green
  | notice
deriving DecidableEq, Fintype

/-- An optical main signal aspect in the H/V signalling system (signals.rs 8-19). -/
inductive HVMainSignalAspect
  | Stop
  | Proceed
  | ProceedSlow
  | Deactivated
  | Dark
deriving DecidableEq, Fintype

/-- Wire identifier of an aspect (signals.rs 22-30); one ASCII byte. -/
def HVMainSignalAspect.command_id : HVMainSignalAspect → List UInt8
  | .Stop => [48]
  | .Proceed => [49]
  | .ProceedSlow => [50]
  | .Deactivated => [65]
  | .Dark => [68]

/-- Parse a wire identifier (signals.rs 32-41). -/
def HVMainSignalAspect.from_command_id : List UInt8 → Option HVMainSignalAspect
  | [48] => some .Stop
  | [49] => some .Proceed
  | [50] => some .ProceedSlow
  | [65] => some .Deactivated
  | [68] => some .Dark
  | _ => none

/-- An optical main signal in the H/V signalling system (signals.rs 88-97),
generic over the pin type as in the source. -/
structure HVMainSignal (P : Type) where
  red_lamp_1 : P
  yellow_lamp : Option P
  green_lamp : P
  notice_lamp : Option P

/-- HVMainSignal::new (signals.rs 100-107). -/
def HVMainSignal.new (red_lamp green_lamp : P) : HVMainSignal P :=
  { red_lamp_1 := red_lamp, yellow_lamp := none, green_lamp := green_lamp,
    notice_lamp := none }

/-- HVMainSignal::with_yellow_lamp (signals.rs 110-113). -/
def HVMainSignal.with_yellow_lamp (self : HVMainSignal P) (yellow_lamp : P) :
    HVMainSignal P :=
  { self with yellow_lamp := some yellow_lamp }

/-- HVMainSignal::with_notice_lamp (signals.rs 116-119). -/
def HVMainSignal.with_notice_lamp (self : HVMainSignal P) (notice_lamp : P) :
    HVMainSignal P :=
  { self with notice_lamp := some notice_lamp }

/-- HVMainSignal::supports_aspect (signals.rs 122-131). -/
def HVMainSignal.supports_aspect (self : HVMainSignal P)
    (aspect : HVMainSignalAspect) : Bool :=
  match aspect with
  | .Stop | .Dark | .Proceed => true
  | .ProceedSlow => self.yellow_lamp.isSome
  | .Deactivated => self.notice_lamp.isSome

/-- switch_optionally (signals.rs 133-136): write the pin when it exists,
otherwise do nothing.  The emitted writes are collected in a list. -/
def switch_optionally (pin : Option P) (state : PinState) :
    List (P × PinState) :=
  match pin with
  | some p => [(p, state)]
  | none => []

/-- HVMainSignal::switch_to_aspect (signals.rs 145-196).  The result is the
ordered list of pin writes; `none` models the panic on an unsupported aspect
(which the source raises before writing any pin). -/
def HVMainSignal.switch_to_aspect (self : HVMainSignal P)
    (aspect : HVMainSignalAspect) : Option (List (P × PinState)) :=
  match aspect with
  | .Stop =>
      some ([(self.red_lamp_1, .high), (self.green_lamp, .low)]
        ++ switch_optionally self.yellow_lamp .low
        ++ switch_optionally self.notice_lamp .low)
  | .Proceed =>
      some ([(self.green_lamp, .high), (self.red_lamp_1, .low)]
        ++ switch_optionally self.yellow_lamp .low
        ++ switch_optionally self.notice_lamp .low)
  | .ProceedSlow =>
      if self.yellow_lamp.isNone then none
      else
        some (switch_optionally self.yellow_lamp .high
          ++ [(self.green_lamp, .high), (self.red_lamp_1, .low)]
          ++ switch_optionally self.notice_lamp .low)
  | .Deactivated =>
      if self.notice_lamp.isNone then none
      else
        some (switch_optionally self.notice_lamp .high
          ++ switch_optionally self.yellow_lamp .low
          ++ [(self.green_lamp, .low), (self.red_lamp_1, .low)])
  | .Dark =>
      some (switch_optionally self.notice_lamp .low
        ++ switch_optionally self.yellow_lamp .low
        ++ [(self.green_lamp, .low), (self.red_lamp_1, .low)])

/-- Replay a list of pin writes over an initial pin-state assignment;
each write overrides the pin it targets. -/
def applyWrites [DecidableEq P] (init : P → PinState) :
    List (P × PinState) → P → PinState
  | [], p => init p
  | w :: rest, p =>
      applyWrites (fun q => if w.1 = q then w.2 else init q) rest p

/-- The last write to pin `p` in the trace, if any. -/
def lastWrite? [DecidableEq P] : List (P × PinState) → P → Option PinState
  | [], _ => none
  | w :: rest, p =>
      match lastWrite? rest p with
      | some s => some s
      | none => if w.1 = p then some w.2 else none

/-- A concrete HV main signal over the four lamp labels; the optional yellow
and notice lamps are present according to the two flags (constructed with
new / with_yellow_lamp / with_notice_lamp as in the source builders). -/
def hv_main_signal (hy hn : Bool) : HVMainSignal HVMainLamp :=
  let s := HVMainSignal.new HVMainLamp.red1 HVMainLamp.green
  let s := if hy then s.with_yellow_lamp HVMainLamp.yellow else s
  if hn then s.with_notice_lamp HVMainLamp.notice else s

/-- Modelled from the spec (round-trip table, spec sections 3 and 8): the lamp
set required by each HV main aspect — Stop lights only red, Proceed only
green, ProceedSlow yellow and green, Deactivated only the notice lamp, Dark
nothing. -/
def spec_hv_main_lamps (a : HVMainSignalAspect) (p : HVMainLamp) : PinState :=
  match a, p with
  | .Stop, .red1 => .high
  | .Proceed, .green => .high
  | .ProceedSlow, .yellow => .high
  | .ProceedSlow, .green => .high
  | .Deactivated, .notice => .high
  | _, _ => .low

/-- Whether lamp `p` is physically present on `hv_main_signal hy hn`. -/
def hv_main_present (hy hn : Bool) (p : HVMainLamp) : Bool :=
  match p with
  | .red1 => true
  | .green => true
  | .yellow => hy
  | .notice => hn

/-- Index of the first occurrence of write `w` in the trace (trace length if
absent). -/
def first_write_index [DecidableEq P] (ws : List (P × PinState))
    (w : P × PinState) : Nat :=
  ws.findIdx (fun x => x == w)

/-- Index of the first write to pin `p` in the trace (trace length if
absent). -/
def first_pin_write_index [DecidableEq P] (ws : List (P × PinState))
    (p : P) : Nat :=
  ws.findIdx (fun x => x.1 == p)

/-- Lamp pins of an HV announcement signal (fields of HVAnnouncementSignal,
signals.rs 204-217). -/
inductive HVAnnLamp
  | green_upper
  | green_lower
  | yellow_upper
  | yellow_lower
  | notice
deriving DecidableEq, Fintype

/-- An optical announcement signal aspect in the H/V signalling system
(signals.rs 58-69). -/
inductive HVAnnouncementSignalAspect
  | ExpectStop
  | ExpectProceed
  | ExpectProceedSlow
  | Deactivated
  | Dark
deriving DecidableEq, Fintype

/-- From HVMainSignalAspect for HVAnnouncementSignalAspect (signals.rs 71-81). -/
def HVAnnouncementSignalAspect.from_main :
    HVMainSignalAspect → HVAnnouncementSignalAspect
  | .Stop => .ExpectStop
  | .Proceed => .ExpectProceed
  | .ProceedSlow => .ExpectProceedSlow
  | .Deactivated => .Deactivated
  | .Dark => .Dark

/-- An optical announcement signal in the H/V signalling system
(signals.rs 204-217). -/
structure HVAnnouncementSignal (P : Type) where
  green_lamp_upper : P
  green_lamp_lower : P
  yellow_lamp_upper : P
  yellow_lamp_lower : P
  notice_lamp : Option P
  is_repeater_or_reduced_distance : Bool

/-- HVAnnouncementSignal::new (signals.rs 220-234). -/
def HVAnnouncementSignal.new (green_lamp_upper green_lamp_lower
    yellow_lamp_upper yellow_lamp_lower : P) : HVAnnouncementSignal P :=
  { green_lamp_upper := green_lamp_upper, green_lamp_lower := green_lamp_lower,
    yellow_lamp_upper := yellow_lamp_upper, yellow_lamp_lower := yellow_lamp_lower,
    notice_lamp := none, is_repeater_or_reduced_distance := false }

/-- HVAnnouncementSignal::with_notice_lamp (signals.rs 237-240). -/
def HVAnnouncementSignal.with_notice_lamp (self : HVAnnouncementSignal P)
    (notice_lamp : P) : HVAnnouncementSignal P :=
  { self with notice_lamp := some notice_lamp }

/-- HVAnnouncementSignal::supports_aspect (signals.rs 243-249). -/
def HVAnnouncementSignal.supports_aspect (self : HVAnnouncementSignal P)
    (aspect : HVAnnouncementSignalAspect) : Bool :=
  match aspect with
  | .Deactivated => self.notice_lamp.isSome
  | _ => true

/-- HVAnnouncementSignal::notice_lamp_for_distance (signals.rs 307-312). -/
def HVAnnouncementSignal.notice_lamp_for_distance
    (self : HVAnnouncementSignal P) : PinState :=
  match self.is_repeater_or_reduced_distance with
  | true => .high
  | false => .low

/-- HVAnnouncementSignal::switch_to_aspect (signals.rs 263-305): first the
notice lamp is driven to its distance-indicator state, then the four main
lamps are switched per aspect; `none` models the Deactivated panic. -/
def HVAnnouncementSignal.switch_to_aspect (self : HVAnnouncementSignal P)
    (aspect : HVAnnouncementSignalAspect) : Option (List (P × PinState)) :=
  let normal_notice_lamp_state := self.notice_lamp_for_distance
  let head := switch_optionally self.notice_lamp normal_notice_lamp_state
  match aspect with
  | .ExpectStop =>
      some (head ++ [(self.yellow_lamp_upper, .high), (self.yellow_lamp_lower, .high),
        (self.green_lamp_lower, .low), (self.green_lamp_upper, .low)])
  | .ExpectProceed =>
      some (head ++ [(self.green_lamp_lower, .high), (self.green_lamp_upper, .high),
        (self.yellow_lamp_upper, .low), (self.yellow_lamp_lower, .low)])
  | .ExpectProceedSlow =>
      some (head ++ [(self.yellow_lamp_lower, .high), (self.green_lamp_upper, .high),
        (self.yellow_lamp_upper, .low), (self.green_lamp_lower, .low)])
  | .Deactivated =>
      if self.notice_lamp.isNone then none
      else
        some (head ++ switch_optionally self.notice_lamp .high
          ++ [(self.yellow_lamp_upper, .low), (self.yellow_lamp_lower, .low),
            (self.green_lamp_lower, .low), (self.green_lamp_upper, .low)])
  | .Dark =>
      some (head ++ [(self.green_lamp_lower, .low), (self.green_lamp_upper, .low),
        (self.yellow_lamp_upper, .low), (self.yellow_lamp_lower, .low)]
        ++ switch_optionally self.notice_lamp .low)

/-- A concrete HV announcement signal over the five lamp labels; the optional
notice lamp is present according to `hn`, and the repeater / reduced-distance
flag is `r` (the public field set by HVSignalGroup::with_reduced_distance). -/
def hv_announcement_signal (hn r : Bool) : HVAnnouncementSignal HVAnnLamp :=
  let s := HVAnnouncementSignal.new HVAnnLamp.green_upper HVAnnLamp.green_lower
    HVAnnLamp.yellow_upper HVAnnLamp.yellow_lower
  let s := if hn then s.with_notice_lamp HVAnnLamp.notice else s
  { s with is_repeater_or_reduced_distance := r }

/-- Modelled from the spec (round-trip table plus the distance-indicator rule
of section 4.4 / the notice-lamp behaviour of switch_to_aspect): lamp set
required by each announcement aspect, on a signal whose repeater /
reduced-distance flag is `r`. -/
def spec_hv_ann_lamps (r : Bool) (a : HVAnnouncementSignalAspect)
    (p : HVAnnLamp) : PinState :=
  match a, p with
  | .ExpectStop, .yellow_upper => .high
  | .ExpectStop, .yellow_lower => .high
  | .ExpectProceed, .green_upper => .high
  | .ExpectProceed, .green_lower => .high
  | .ExpectProceedSlow, .yellow_lower => .high
  | .ExpectProceedSlow, .green_upper => .high
  | .ExpectStop, .notice => if r then .high else .low
  | .ExpectProceed, .notice => if r then .high else .low
  | .ExpectProceedSlow, .notice => if r then .high else .low
  | .Deactivated, .notice => .high
  | _, _ => .low

/-- Whether lamp `p` is physically present on `hv_announcement_signal hn r`. -/
def hv_ann_present (hn : Bool) (p : HVAnnLamp) : Bool :=
  match p with
  | .notice => hn
  | _ => true

/-- Lamp pins of a Ks signal (fields of KsSignal / ExtraKsPins,
signals.rs 412-418 and 435-446). -/
inductive KsLamp
  | red
  | yellow
  | green
  | notice
deriving DecidableEq, Fintype

/-- A signal aspect in the Ks signalling system (signals.rs 421-433). -/
inductive KsSignalAspect
  | Stop
  | Proceed
  | ExpectStop
  | Deactivated
  | Dark
deriving DecidableEq, Fintype

/-- ExtraKsPins (signals.rs 435-446). -/
inductive ExtraKsPins (P : Type)
  | MultiBlockSignal (red_lamp : P) (yellow_lamp : P)
  | MainSignal (red_lamp : P)
  | AnnouncementSignal (yellow_lamp : P)
deriving DecidableEq

/-- ExtraKsPins::red_lamp (signals.rs 449-455). -/
def ExtraKsPins.red_lamp : ExtraKsPins P → Option P
  | .MultiBlockSignal red_lamp _ => some red_lamp
  | .MainSignal red_lamp => some red_lamp
  | .AnnouncementSignal _ => none

/-- ExtraKsPins::yellow_lamp (signals.rs 456-462). -/
def ExtraKsPins.yellow_lamp : ExtraKsPins P → Option P
  | .MultiBlockSignal _ yellow_lamp => some yellow_lamp
  | .MainSignal _ => none
  | .AnnouncementSignal yellow_lamp => some yellow_lamp

/-- ExtraKsPins::has_red_lamp (signals.rs 463-469). -/
def ExtraKsPins.has_red_lamp : ExtraKsPins P → Bool
  | .MultiBlockSignal _ _ => true
  | .MainSignal _ => true
  | .AnnouncementSignal _ => false

/-- ExtraKsPins::has_yellow_lamp (signals.rs 470-476). -/
def ExtraKsPins.has_yellow_lamp : ExtraKsPins P → Bool
  | .MultiBlockSignal _ _ => true
  | .MainSignal _ => false
  | .AnnouncementSignal _ => true

/-- A signal in the Ks signalling system (signals.rs 412-418). -/
structure KsSignal (P : Type) where
  other_pins : ExtraKsPins P
  green_lamp : P
  notice_lamp : Option P

/-- KsSignal::new_main (signals.rs 480-486). -/
def KsSignal.new_main (red_lamp green_lamp : P) : KsSignal P :=
  { other_pins := .MainSignal red_lamp, green_lamp := green_lamp,
    notice_lamp := none }

/-- KsSignal::new_announcement (signals.rs 487-493). -/
def KsSignal.new_announcement (green_lamp yellow_lamp : P) : KsSignal P :=
  { other_pins := .AnnouncementSignal yellow_lamp, green_lamp := green_lamp,
    notice_lamp := none }

/-- KsSignal::new_multi_block (signals.rs 494-503). -/
def KsSignal.new_multi_block (red_lamp green_lamp yellow_lamp : P) : KsSignal P :=
  { other_pins := .MultiBlockSignal red_lamp yellow_lamp,
    green_lamp := green_lamp, notice_lamp := none }

/-- KsSignal::with_notice_lamp (signals.rs 506-509). -/
def KsSignal.with_notice_lamp (self : KsSignal P) (notice_lamp : P) :
    KsSignal P :=
  { self with notice_lamp := some notice_lamp }

/-- KsSignal::supports_aspect (signals.rs 512-520). -/
def KsSignal.supports_aspect (self : KsSignal P) (aspect : KsSignalAspect) :
    Bool :=
  match aspect with
  | .Dark | .Proceed => true
  | .Stop => self.other_pins.has_red_lamp
  | .ExpectStop => self.other_pins.has_yellow_lamp
  | .Deactivated => self.notice_lamp.isSome

/-- KsSignal::switch_to_aspect (signals.rs 534-588); `none` models the three
panic branches (each fires before any pin write). -/
def KsSignal.switch_to_aspect (self : KsSignal P) (aspect : KsSignalAspect) :
    Option (List (P × PinState)) :=
  match aspect with
  | .Stop =>
      if !self.other_pins.has_red_lamp then none
      else
        some (switch_optionally self.other_pins.red_lamp .high
          ++ [(self.green_lamp, .low)]
          ++ switch_optionally self.other_pins.yellow_lamp .low
          ++ switch_optionally self.notice_lamp .low)
  | .Proceed =>
      some ([(self.green_lamp, .high)]
        ++ switch_optionally self.other_pins.red_lamp .low
        ++ switch_optionally self.other_pins.yellow_lamp .low
        ++ switch_optionally self.notice_lamp .low)
  | .ExpectStop =>
      if !self.other_pins.has_yellow_lamp then none
      else
        some (switch_optionally self.other_pins.yellow_lamp .high
          ++ [(self.green_lamp, .low)]
          ++ switch_optionally self.other_pins.red_lamp .low
          ++ switch_optionally self.notice_lamp .low)
  | .Deactivated =>
      if self.notice_lamp.isNone then none
      else
        some (switch_optionally self.notice_lamp .high
          ++ switch_optionally self.other_pins.yellow_lamp .low
          ++ [(self.green_lamp, .low)]
          ++ switch_optionally self.other_pins.red_lamp .low)
  | .Dark =>
      some (switch_optionally self.notice_lamp .low
        ++ [(self.green_lamp, .low)]
        ++ switch_optionally self.other_pins.yellow_lamp .low
        ++ switch_optionally self.other_pins.red_lamp .low)

/-- The three Ks pin layouts (which constructor of KsSignal is used). -/
inductive KsKind
  | main
  | announcement
  | multi_block
deriving DecidableEq, Fintype

/-- A concrete Ks signal over the four lamp labels, built with the
constructor selected by `k` plus an optional notice lamp. -/
def ks_signal (k : KsKind) (hn : Bool) : KsSignal KsLamp :=
  let s :=
    match k with
    | .main => KsSignal.new_main KsLamp.red KsLamp.green
    | .announcement => KsSignal.new_announcement KsLamp.green KsLamp.yellow
    | .multi_block => KsSignal.new_multi_block KsLamp.red KsLamp.green KsLamp.yellow
  if hn then s.with_notice_lamp KsLamp.notice else s

/-- Modelled from the spec (round-trip table): lamp set required by each Ks
aspect — Stop only red, Proceed only green, ExpectStop only yellow,
Deactivated only the notice lamp, Dark nothing. -/
def spec_ks_lamps (a : KsSignalAspect) (p : KsLamp) : PinState :=
  match a, p with
  | .Stop, .red => .high
  | .Proceed, .green => .high
  | .ExpectStop, .yellow => .high
  | .Deactivated, .notice => .high
  | _, _ => .low

/-- Whether lamp `p` is physically present on `ks_signal k hn`. -/
def ks_present (k : KsKind) (hn : Bool) (p : KsLamp) : Bool :=
  match p with
  | .green => true
  | .red => (ks_signal k hn).other_pins.has_red_lamp
  | .yellow => (ks_signal k hn).other_pins.has_yellow_lamp
  | .notice => hn

/-- A grouping of an announcement and main signal in the H/V signaling system
(signals.rs 316-321). -/
structure HVSignalGroup (P : Type) where
  main_signal : HVMainSignal P
  announcement_signal : HVAnnouncementSignal P
  repeater_signal_notice_lamp : Option P

/-- HVSignalGroup::new (signals.rs 325-343). -/
def HVSignalGroup.new (main_red_lamp main_green_lamp
    announcement_green_lamp_upper announcement_green_lamp_lower
    announcement_yellow_lamp_upper announcement_yellow_lamp_lower : P) :
    HVSignalGroup P :=
  { main_signal := HVMainSignal.new main_red_lamp main_green_lamp,
    announcement_signal := HVAnnouncementSignal.new
      announcement_green_lamp_upper announcement_green_lamp_lower
      announcement_yellow_lamp_upper announcement_yellow_lamp_lower,
    repeater_signal_notice_lamp := none }

/-- HVSignalGroup::with_slow_aspect (signals.rs 346-349). -/
def HVSignalGroup.with_slow_aspect (self : HVSignalGroup P)
    (main_yellow_lamp : P) : HVSignalGroup P :=
  { self with main_signal := self.main_signal.with_yellow_lamp main_yellow_lamp }

/-- HVSignalGroup::with_reduced_distance (signals.rs 352-360). -/
def HVSignalGroup.with_reduced_distance (self : HVSignalGroup P)
    (announcement_notice_lamp : Option P) : HVSignalGroup P :=
  let s :=
    match announcement_notice_lamp with
    | some announcement_notice_lamp =>
        { self with announcement_signal :=
            self.announcement_signal.with_notice_lamp announcement_notice_lamp }
    | none => self
  { s with announcement_signal :=
      { s.announcement_signal with is_repeater_or_reduced_distance := true } }

/-- HVSignalGroup::with_deactivation_capability (signals.rs 363-373). -/
def HVSignalGroup.with_deactivation_capability (self : HVSignalGroup P)
    (main_notice_lamp announcement_notice_lamp : P) : HVSignalGroup P :=
  { self with
    main_signal := self.main_signal.with_notice_lamp main_notice_lamp,
    announcement_signal :=
      self.announcement_signal.with_notice_lamp announcement_notice_lamp }

/-- HVSignalGroup::with_repeater_signal (signals.rs 376-379). -/
def HVSignalGroup.with_repeater_signal (self : HVSignalGroup P)
    (repeater_notice_lamp : P) : HVSignalGroup P :=
  { self with repeater_signal_notice_lamp := some repeater_notice_lamp }

/-- HVSignalGroup::switch_to_aspect (signals.rs 386-399): main signal first,
then the announcement signal at the derived aspect, then the repeater notice
lamp; `none` models a panic in either switch (the pin writes already issued
before such a panic are not retained, since no claim inspects post-panic
state). -/
def HVSignalGroup.switch_to_aspect [DecidableEq P] (self : HVSignalGroup P)
    (aspect : HVMainSignalAspect) : Option (List (P × PinState)) :=
  (self.main_signal.switch_to_aspect aspect).bind (fun main_writes =>
    (self.announcement_signal.switch_to_aspect
        (HVAnnouncementSignalAspect.from_main aspect)).map (fun ann_writes =>
      main_writes ++ ann_writes
        ++ switch_optionally self.repeater_signal_notice_lamp
          (if aspect = HVMainSignalAspect.Dark then .low else .high)))

/-- HVSignalGroup::supports_aspect (signals.rs 401-404). -/
def HVSignalGroup.supports_aspect (self : HVSignalGroup P)
    (aspect : HVMainSignalAspect) : Bool :=
  self.main_signal.supports_aspect aspect
    && self.announcement_signal.supports_aspect
      (HVAnnouncementSignalAspect.from_main aspect)

/-- Output pins of the device (main.rs 123-163); `repeater_notice` stands for
the pin a repeater notice lamp would use (with_repeater_signal is provided by
signals.rs but not wired up in main.rs). -/
inductive Pin
  | d2
  | d3
  | d4
  | d5
  | d6
  | d7
  | d8
  | d9
  | d10
  | d11
  | d12
  | d13
  | repeater_notice
deriving DecidableEq, Fintype

/-- The signal group built by main (main.rs 123-143): d2/d4 main red/green,
d5-d8 announcement lamps, d9/d10 the notice lamps when deactivation is
configured, d3 the main yellow lamp when the slow aspect is configured,
reduced distance with no extra lamp; a repeater notice lamp can additionally
be attached through HVSignalGroup::with_repeater_signal. -/
def device_signal_group (has_deact has_slow has_reduced has_repeater : Bool) :
    HVSignalGroup Pin :=
  let g := HVSignalGroup.new Pin.d2 Pin.d4 Pin.d5 Pin.d6 Pin.d7 Pin.d8
  let g := if has_deact then g.with_deactivation_capability Pin.d9 Pin.d10 else g
  let g := if has_slow then g.with_slow_aspect Pin.d3 else g
  let g := if has_reduced then g.with_reduced_distance none else g
  if has_repeater then g.with_repeater_signal Pin.repeater_notice else g

/-- The Ks signal built by main (main.rs 159-163): red d11, green d13,
yellow d12, no notice lamp. -/
def device_ks : KsSignal Pin :=
  KsSignal.new_multi_block Pin.d11 Pin.d13 Pin.d12

/-- SIGNAL_ID (main.rs 38): the ASCII bytes of "F". -/
def SIGNAL_ID : List UInt8 := [70]

/-- First section of a `:`-separated byte list, plus the remainder after the
first `:` (none when no `:` occurs) — the behaviour of the first two steps of
`before_comment.split(b':')` in commands.rs 29-46. -/
def split_first : List UInt8 → List UInt8 × Option (List UInt8)
  | [] => ([], none)
  | c :: rest =>
      if c = 58 then ([], some rest)
      else
        let r := split_first rest
        (c :: r.1, r.2)

/-- The command-code table of get_next_command (commands.rs 57-62):
"A" Deactivated, "D" Dark, "0" Stop, "1" Proceed,
"2" ProceedSlow paired with Ks ExpectStop. -/
def command_table : List UInt8 → Option (HVMainSignalAspect × KsSignalAspect)
  | [65] => some (.Deactivated, .Deactivated)
  | [68] => some (.Dark, .Dark)
  | [48] => some (.Stop, .Stop)
  | [49] => some (.Proceed, .Proceed)
  | [50] => some (.ProceedSlow, .ExpectStop)
  | _ => none

/-- Classification of one command line: silently ignored, a reportable
error (carrying the bytes embedded in the error message), or an aspect
pair. -/
inductive ParseOutcome
  | ignored
  | missingCommand (before_comment : List UInt8)
  | unknownCommand (command : List UInt8)
  | command (hv : HVMainSignalAspect) (ks : KsSignalAspect)
deriving DecidableEq

/-- The per-line classification performed by get_next_command
(commands.rs 19-75) on one newline-free line: take the bytes before the first
`#` (`line.split(b'#').next()`); an empty result makes the loop read on
(ignored); the first `:`-section must equal SIGNAL_ID or the line is silently
skipped; a missing second section reports a missing command; otherwise the
second section is looked up in the command table.  main.rs 193 calls the
line-shaped variant of this function, which is one of the repository's
historical variants not present under src/; its classification is this one. -/
def get_next_command_line (line : List UInt8) : ParseOutcome :=
  if (line.takeWhile (fun c => c ≠ 35)).isEmpty then .ignored
  else if (split_first (line.takeWhile (fun c => c ≠ 35))).1 ≠ SIGNAL_ID then
    .ignored
  else
    match (split_first (line.takeWhile (fun c => c ≠ 35))).2 with
    | none => .missingCommand (line.takeWhile (fun c => c ≠ 35))
    | some rest =>
        match command_table (split_first rest).1 with
        | some (hv, ks) => .command hv ks
        | none => .unknownCommand (split_first rest).1

/-- Observable effects of one main-loop iteration (main.rs 180-216): the echo
of the received line, the persistence write (address and bytes of
eeprom.write), individual lamp pin writes, and the response lines
(acknowledgement, the capability error `F:E:1`, or a parse error message). -/
inductive Event
  | echo (bytes : List UInt8)
  | eeprom_write (address : Nat) (data : List UInt8)
  | pin_write (pin : Pin) (state : PinState)
  | respond_ack (code : List UInt8)
  | respond_unsupported
  | respond_parse_error (outcome : ParseOutcome)
deriving DecidableEq

/-- Drop the trailing newline bytes (`\n`, and a preceding `\r` of a CRLF
pair) from a completed line: main.rs keeps the `\n` terminator in `line`
(split_off at the newline position + 1), while the parser classifies the
newline-free content (commands.rs reads lines up to, not including, `\n` or
`\r`). -/
def strip_newline (line : List UInt8) : List UInt8 :=
  (line.reverse.dropWhile (fun c => c = 10 || c = 13)).reverse

/-- Pin-write events of a switch trace. -/
def pin_events (ws : List (Pin × PinState)) : List Event :=
  ws.map (fun w => Event.pin_write w.1 w.2)

/-- One main-loop iteration on a completed line (main.rs 182-216): echo the
line, classify it, and on a supported command persist the wire identifier,
switch the signal group, switch the Ks signal, and acknowledge.  The result
is the ordered event list together with a flag saying whether the iteration
panicked (a contract-violation panic inside a switch; events already emitted
before the panic are kept). -/
def process_line (g : HVSignalGroup Pin) (ks : KsSignal Pin)
    (line : List UInt8) : List Event × Bool :=
  match get_next_command_line (strip_newline line) with
  | .ignored => ([Event.echo line], false)
  | .missingCommand bc =>
      ([Event.echo line, .respond_parse_error (.missingCommand bc)], false)
  | .unknownCommand c =>
      ([Event.echo line, .respond_parse_error (.unknownCommand c)], false)
  | .command next_hv_aspect next_ks_aspect =>
      if g.supports_aspect next_hv_aspect then
        match g.switch_to_aspect next_hv_aspect with
        | none =>
            ([Event.echo line, .eeprom_write 0 next_hv_aspect.command_id], true)
        | some group_writes =>
            match ks.switch_to_aspect next_ks_aspect with
            | none =>
                ([Event.echo line, .eeprom_write 0 next_hv_aspect.command_id]
                  ++ pin_events group_writes, true)
            | some ks_writes =>
                ([Event.echo line, .eeprom_write 0 next_hv_aspect.command_id]
                  ++ pin_events group_writes ++ pin_events ks_writes
                  ++ [.respond_ack next_hv_aspect.command_id], false)
      else ([Event.echo line, .respond_unsupported], false)

/-- The startup sequence of main (main.rs 145-157): switch the group to Stop,
read the persisted byte, and when it is a recognized wire identifier whose
aspect the group supports, switch to that aspect.  The result is the combined
pin-write trace (`none` would model a panic, which cannot occur here). -/
def boot_events (g : HVSignalGroup Pin) (saved_aspect : List UInt8) :
    Option (List (Pin × PinState)) :=
  (g.switch_to_aspect .Stop).bind (fun stop_writes =>
    match HVMainSignalAspect.from_command_id saved_aspect with
    | some saved =>
        if g.supports_aspect saved then
          (g.switch_to_aspect saved).map (fun ws => stop_writes ++ ws)
        else some stop_writes
    | none => some stop_writes)

/-- The interrupt-side byte queue capacity (main.rs 59-60). -/
def SERIAL_BUFFER_CAPACITY : Nat := 32

/-- ArrayVec::push of the arrayvec crate: appends when below capacity and
panics (modelled as `none`) when the vector is already full. -/
def arrayvec_push (buffer : List UInt8) (byte : UInt8) : Option (List UInt8) :=
  if buffer.length < SERIAL_BUFFER_CAPACITY then some (buffer ++ [byte])
  else none

/-- The USART_RX interrupt handler (main.rs 62-77): when the shared serial
handle is available and a byte was read, push it onto the 32-byte queue
(ArrayVec::push); a WouldBlock read (`none`) just returns.  The result is the
new queue contents, or `none` when the handler panics. -/
def USART_RX (serial_available : Bool) (buffer : List UInt8)
    (read_result : Option UInt8) : Option (List UInt8) :=
  if serial_available then
    match read_result with
    | some byte => arrayvec_push buffer byte
    | none => some buffer
  else some buffer

/-- Which lamps of the group belong to the main signal (d2 red, d3 yellow,
d4 green, d9 notice). -/
def is_main_lamp : Pin → Bool
  | .d2 | .d3 | .d4 | .d9 => true
  | _ => false

/-- Which lamps of the group belong to the announcement signal (d5-d8 plus
the d10 notice lamp). -/
def is_ann_lamp : Pin → Bool
  | .d5 | .d6 | .d7 | .d8 | .d10 => true
  | _ => false

/-- Which lamp is the repeater notice lamp. -/
def is_repeater_lamp : Pin → Bool
  | .repeater_notice => true
  | _ => false

/-- Whether lamp `p` is physically present on
`device_signal_group hd hs hr hrep` (the reduced-distance flag adds no lamp:
main.rs passes None to with_reduced_distance). -/
def group_lamp_present (hd hs _hr hrep : Bool) (p : Pin) : Bool :=
  match p with
  | .d2 | .d4 | .d5 | .d6 | .d7 | .d8 => true
  | .d3 => hs
  | .d9 | .d10 => hd
  | .repeater_notice => hrep
  | _ => false

/-- Modelled from the spec (sections 3, 4.4 and 8): the expected lamp state of
the whole group for main aspect `a` — main lamps per the main table,
announcement lamps per the announcement table at the derived aspect (with the
reduced-distance flag `hr` driving the notice lamp), repeater notice lit
whenever the group is not Dark. -/
def spec_group_lamps (hr : Bool) (a : HVMainSignalAspect) (p : Pin) : PinState :=
  match p with
  | .d2 => spec_hv_main_lamps a .red1
  | .d3 => spec_hv_main_lamps a .yellow
  | .d4 => spec_hv_main_lamps a .green
  | .d9 => spec_hv_main_lamps a .notice
  | .d5 => spec_hv_ann_lamps hr (.from_main a) .green_upper
  | .d6 => spec_hv_ann_lamps hr (.from_main a) .green_lower
  | .d7 => spec_hv_ann_lamps hr (.from_main a) .yellow_upper
  | .d8 => spec_hv_ann_lamps hr (.from_main a) .yellow_lower
  | .d10 => spec_hv_ann_lamps hr (.from_main a) .notice
  | .repeater_notice => if a = .Dark then .low else .high
  | _ => .low

/-- All writes to main-signal lamps precede all writes to announcement-signal
lamps, which precede any repeater-lamp write. -/
def ordered_by_signal (w : Option (List (Pin × PinState))) : Bool :=
  match w with
  | none => true
  | some ws =>
      ws == ws.filter (fun x => is_main_lamp x.1)
        ++ ws.filter (fun x => is_ann_lamp x.1)
        ++ ws.filter (fun x => is_repeater_lamp x.1)

/-- The trace `w` begins with the full trace of switching `g` to Stop. -/
def stop_first (g : HVSignalGroup Pin) (w : Option (List (Pin × PinState))) :
    Bool :=
  match g.switch_to_aspect .Stop, w with
  | some st, some ws => ws.take st.length == st
  | _, _ => false

/-- The aspect the startup sequence is required to end on: the persisted
aspect when its wire identifier is recognized and the group supports it,
otherwise Stop. -/
def boot_target (g : HVSignalGroup Pin) (saved_aspect : List UInt8) :
    HVMainSignalAspect :=
  match HVMainSignalAspect.from_command_id saved_aspect with
  | some saved => if g.supports_aspect saved then saved else .Stop
  | none => .Stop

theorem applyWrites_eq_lastWrite [DecidableEq P] (ws : List (P × PinState))
    (init : P → PinState) (p : P) :
    applyWrites init ws p = (lastWrite? ws p).getD (init p) := by
  induction ws generalizing init with
  | nil => rfl
  | cons w rest ih =>
      simp only [applyWrites, lastWrite?]
      rw [ih]
      cases h : lastWrite? rest p with
      | some s => rfl
      | none =>
          by_cases hw : w.1 = p
          · simp [hw]
          · simp [hw]

/-- C1: in the emitted pin-write sequence of switch_to_aspect, restrictive
lamps of the new aspect go on before permissive lamps change: entering
ProceedSlow writes yellow high strictly before any green write (HV main and
the Ks ExpectStop analogue), and entering Stop writes red high strictly
before green is written low (HV main and Ks), independently of which optional
lamps are fitted. -/
theorem C1_restrictive_before_permissive :
    (∀ hn : Bool,
      ((hv_main_signal true hn).switch_to_aspect .ProceedSlow).isSome = true ∧
      first_write_index
          (((hv_main_signal true hn).switch_to_aspect .ProceedSlow).getD [])
          (HVMainLamp.yellow, .high)
        < first_pin_write_index
          (((hv_main_signal true hn).switch_to_aspect .ProceedSlow).getD [])
          HVMainLamp.green) ∧
    (∀ hy hn : Bool,
      ((hv_main_signal hy hn).switch_to_aspect .Stop).isSome = true ∧
      first_write_index (((hv_main_signal hy hn).switch_to_aspect .Stop).getD [])
          (HVMainLamp.red1, .high)
        < first_write_index
          (((hv_main_signal hy hn).switch_to_aspect .Stop).getD [])
          (HVMainLamp.green, .low)) ∧
    (∀ hn : Bool, ∀ k : KsKind, (ks_signal k hn).other_pins.has_yellow_lamp = true →
      ((ks_signal k hn).switch_to_aspect .ExpectStop).isSome = true ∧
      first_write_index (((ks_signal k hn).switch_to_aspect .ExpectStop).getD [])
          (KsLamp.yellow, .high)
        < first_pin_write_index
          (((ks_signal k hn).switch_to_aspect .ExpectStop).getD []) KsLamp.green) ∧
    (∀ hn : Bool, ∀ k : KsKind, (ks_signal k hn).other_pins.has_red_lamp = true →
      ((ks_signal k hn).switch_to_aspect .Stop).isSome = true ∧
      first_write_index (((ks_signal k hn).switch_to_aspect .Stop).getD [])
          (KsLamp.red, .high)
        < first_write_index (((ks_signal k hn).switch_to_aspect .Stop).getD [])
          (KsLamp.green, .low)) := by
  decide

theorem C1_witness :
    (ks_signal KsKind.multi_block false).other_pins.has_yellow_lamp = true ∧
    (((ks_signal KsKind.multi_block false).switch_to_aspect .ExpectStop).isSome = true ∧
      first_write_index
          (((ks_signal KsKind.multi_block false).switch_to_aspect .ExpectStop).getD [])
          (KsLamp.yellow, .high)
        < first_pin_write_index
          (((ks_signal KsKind.multi_block false).switch_to_aspect .ExpectStop).getD [])
          KsLamp.green) :=
  ⟨by decide,
    C1_restrictive_before_permissive.2.2.1 false KsKind.multi_block (by decide)⟩

/-- C3: for all three signal kinds and every aspect, switch_to_aspect panics
(returns no trace) exactly when supports_aspect is false for the lamp
configuration; under supports_aspect = true it always succeeds. -/
theorem C3_panics_iff_unsupported :
    (∀ hy hn : Bool, ∀ a : HVMainSignalAspect,
      ((hv_main_signal hy hn).switch_to_aspect a).isSome
        = (hv_main_signal hy hn).supports_aspect a) ∧
    (∀ hn r : Bool, ∀ a : HVAnnouncementSignalAspect,
      ((hv_announcement_signal hn r).switch_to_aspect a).isSome
        = (hv_announcement_signal hn r).supports_aspect a) ∧
    (∀ k : KsKind, ∀ hn : Bool, ∀ a : KsSignalAspect,
      ((ks_signal k hn).switch_to_aspect a).isSome
        = (ks_signal k hn).supports_aspect a) := by
  decide

/-- C10: on an announcement signal fitted with a notice lamp, the notice lamp
doubles as the distance indicator: the three Expect aspects leave it lit
exactly when is_repeater_or_reduced_distance is set, Dark always leaves it
unlit, Deactivated always leaves it lit. -/
theorem C10_notice_lamp_distance_indicator :
    ∀ r : Bool,
      (((hv_announcement_signal true r).switch_to_aspect .ExpectStop).map
          (fun ws => lastWrite? ws HVAnnLamp.notice)
        = some (some (if r then .high else .low))) ∧
      (((hv_announcement_signal true r).switch_to_aspect .ExpectProceed).map
          (fun ws => lastWrite? ws HVAnnLamp.notice)
        = some (some (if r then .high else .low))) ∧
      (((hv_announcement_signal true r).switch_to_aspect .ExpectProceedSlow).map
          (fun ws => lastWrite? ws HVAnnLamp.notice)
        = some (some (if r then .high else .low))) ∧
      (((hv_announcement_signal true r).switch_to_aspect .Dark).map
          (fun ws => lastWrite? ws HVAnnLamp.notice)
        = some (some .low)) ∧
      (((hv_announcement_signal true r).switch_to_aspect .Deactivated).map
          (fun ws => lastWrite? ws HVAnnLamp.notice)
        = some (some .high)) := by
  decide

/-- C4 counterexample: with the 32-byte queue already full, the receive
interrupt handler does not silently drop the incoming byte — ArrayVec::push
panics, so the handler faults instead of leaving the queue unchanged. -/
theorem C4_counterexample :
    USART_RX true (List.replicate 32 48) (some 50) = none ∧
    USART_RX true (List.replicate 32 48) (some 50)
      ≠ some (List.replicate 32 48) := by
  decide

/-- C4 amended: the handler never blocks (a WouldBlock read returns at once)
and never overwrites queued bytes — when there is room the byte is appended
after the existing contents — but a byte arriving while the 32-byte queue is
full makes the handler panic (ArrayVec::push on a full vector) rather than
silently dropping the byte. -/
theorem C4_amended :
    (∀ (buffer : List UInt8) (byte : UInt8),
      buffer.length < SERIAL_BUFFER_CAPACITY →
      USART_RX true buffer (some byte) = some (buffer ++ [byte])) ∧
    (∀ (buffer : List UInt8) (byte : UInt8),
      ¬ buffer.length < SERIAL_BUFFER_CAPACITY →
      USART_RX true buffer (some byte) = none) ∧
    (∀ (available : Bool) (buffer : List UInt8),
      USART_RX available buffer none = some buffer) := by
  refine ⟨?_, ?_, ?_⟩
  · intro buffer byte h
    simp [USART_RX, arrayvec_push, h]
  · intro buffer byte h
    simp [USART_RX, arrayvec_push, h]
  · intro available buffer
    cases available <;> rfl

theorem C4_amended_witness :
    ([] : List UInt8).length < SERIAL_BUFFER_CAPACITY ∧
    USART_RX true [] (some 50) = some [50] :=
  ⟨by decide, C4_amended.1 [] 50 (by decide)⟩

/-- The line "F:2 # slow down" as bytes. -/
def c5_input : List UInt8 :=
  [70, 58, 50, 32, 35, 32, 115, 108, 111, 119, 32, 100, 111, 119, 110]

/-- C5 counterexample: the parser does not trim whitespace, so on device "F"
the line "F:2 # slow down" leaves a trailing space in the command section and
is classified as an unknown command, not as the ProceedSlow command. -/
theorem C5_counterexample :
    get_next_command_line c5_input = .unknownCommand [50, 32] ∧
    get_next_command_line c5_input
      ≠ .command .ProceedSlow .ExpectStop := by
  decide

/-- C5 amended: comment stripping removes everything from the first `#`
onward, but no whitespace is trimmed; a line of exactly identifier, `:`, and
a command code (with an optional comment attached directly, without a
separating space) parses to the tabulated aspect pair, while "F:2 # slow
down" yields an unknown-command error because of the space before `#`. -/
theorem C5_amended :
    get_next_command_line [70, 58, 48] = .command .Stop .Stop ∧
    get_next_command_line [70, 58, 49] = .command .Proceed .Proceed ∧
    get_next_command_line [70, 58, 50] = .command .ProceedSlow .ExpectStop ∧
    get_next_command_line [70, 58, 65] = .command .Deactivated .Deactivated ∧
    get_next_command_line [70, 58, 68] = .command .Dark .Dark ∧
    (∀ rest : List UInt8,
      get_next_command_line ([70, 58, 50, 35] ++ rest)
        = .command .ProceedSlow .ExpectStop) ∧
    get_next_command_line c5_input = .unknownCommand [50, 32] := by
  refine ⟨by decide, by decide, by decide, by decide, by decide, ?_, by decide⟩
  intro rest
  rfl

/-- C2: for every supported aspect, after switch_to_aspect the present lamps
hold exactly the state the round-trip table requires for that aspect, whatever
they held before (so the final lamp state depends only on the target aspect),
and replaying the same switch a second time changes nothing (idempotence) —
for the HV main signal, the HV announcement signal, and the Ks signal. -/
theorem applyWrites_idem [DecidableEq P] (ws : List (P × PinState))
    (init : P → PinState) (p : P) :
    applyWrites (applyWrites init ws) ws p = applyWrites init ws p := by
  rw [applyWrites_eq_lastWrite ws (applyWrites init ws) p,
    applyWrites_eq_lastWrite ws init p]
  cases h : lastWrite? ws p with
  | some s => rfl
  | none => simp [applyWrites_eq_lastWrite, h]

theorem hv_main_final_state :
    ∀ (hy hn : Bool) (a : HVMainSignalAspect) (p : HVMainLamp),
      (hv_main_signal hy hn).supports_aspect a = true →
      hv_main_present hy hn p = true →
      ((hv_main_signal hy hn).switch_to_aspect a).map (fun ws => lastWrite? ws p)
        = some (some (spec_hv_main_lamps a p)) := by
  decide

theorem hv_ann_final_state :
    ∀ (hn r : Bool) (a : HVAnnouncementSignalAspect) (p : HVAnnLamp),
      (hv_announcement_signal hn r).supports_aspect a = true →
      hv_ann_present hn p = true →
      ((hv_announcement_signal hn r).switch_to_aspect a).map
          (fun ws => lastWrite? ws p)
        = some (some (spec_hv_ann_lamps r a p)) := by
  decide

theorem ks_final_state :
    ∀ (k : KsKind) (hn : Bool) (a : KsSignalAspect) (p : KsLamp),
      (ks_signal k hn).supports_aspect a = true →
      ks_present k hn p = true →
      ((ks_signal k hn).switch_to_aspect a).map (fun ws => lastWrite? ws p)
        = some (some (spec_ks_lamps a p)) := by
  decide

theorem C2_exact_lamp_state_idempotent :
    (∀ (hy hn : Bool) (a : HVMainSignalAspect),
      (hv_main_signal hy hn).supports_aspect a = true →
      ∀ (init : HVMainLamp → PinState) (p : HVMainLamp),
        hv_main_present hy hn p = true →
        ((hv_main_signal hy hn).switch_to_aspect a).map
            (fun ws => applyWrites init ws p)
          = some (spec_hv_main_lamps a p)) ∧
    (∀ (hy hn : Bool) (a : HVMainSignalAspect)
        (init : HVMainLamp → PinState) (p : HVMainLamp),
      ((hv_main_signal hy hn).switch_to_aspect a).map
          (fun ws => applyWrites (applyWrites init ws) ws p)
        = ((hv_main_signal hy hn).switch_to_aspect a).map
          (fun ws => applyWrites init ws p)) ∧
    (∀ (hn r : Bool) (a : HVAnnouncementSignalAspect),
      (hv_announcement_signal hn r).supports_aspect a = true →
      ∀ (init : HVAnnLamp → PinState) (p : HVAnnLamp),
        hv_ann_present hn p = true →
        ((hv_announcement_signal hn r).switch_to_aspect a).map
            (fun ws => applyWrites init ws p)
          = some (spec_hv_ann_lamps r a p)) ∧
    (∀ (hn r : Bool) (a : HVAnnouncementSignalAspect)
        (init : HVAnnLamp → PinState) (p : HVAnnLamp),
      ((hv_announcement_signal hn r).switch_to_aspect a).map
          (fun ws => applyWrites (applyWrites init ws) ws p)
        = ((hv_announcement_signal hn r).switch_to_aspect a).map
          (fun ws => applyWrites init ws p)) ∧
    (∀ (k : KsKind) (hn : Bool) (a : KsSignalAspect),
      (ks_signal k hn).supports_aspect a = true →
      ∀ (init : KsLamp → PinState) (p : KsLamp),
        ks_present k hn p = true →
        ((ks_signal k hn).switch_to_aspect a).map
            (fun ws => applyWrites init ws p)
          = some (spec_ks_lamps a p)) ∧
    (∀ (k : KsKind) (hn : Bool) (a : KsSignalAspect)
        (init : KsLamp → PinState) (p : KsLamp),
      ((ks_signal k hn).switch_to_aspect a).map
          (fun ws => applyWrites (applyWrites init ws) ws p)
        = ((ks_signal k hn).switch_to_aspect a).map
          (fun ws => applyWrites init ws p)) := by
  refine ⟨?_, ?_, ?_, ?_, ?_, ?_⟩
  · intro hy hn a ha init p hp
    have h := hv_main_final_state hy hn a p ha hp
    cases hsw : (hv_main_signal hy hn).switch_to_aspect a with
    | none => rw [hsw] at h; simp at h
    | some ws =>
        rw [hsw] at h
        simp only [Option.map_some'] at h ⊢
        rw [applyWrites_eq_lastWrite]
        rw [Option.some_inj] at h
        rw [h]
        rfl
  · intro hy hn a init p
    cases hsw : (hv_main_signal hy hn).switch_to_aspect a <;>
      simp [applyWrites_idem]
  · intro hn r a ha init p hp
    have h := hv_ann_final_state hn r a p ha hp
    cases hsw : (hv_announcement_signal hn r).switch_to_aspect a with
    | none => rw [hsw] at h; simp at h
    | some ws =>
        rw [hsw] at h
        simp only [Option.map_some'] at h ⊢
        rw [applyWrites_eq_lastWrite]
        rw [Option.some_inj] at h
        rw [h]
        rfl
  · intro hn r a init p
    cases hsw : (hv_announcement_signal hn r).switch_to_aspect a <;>
      simp [applyWrites_idem]
  · intro k hn a ha init p hp
    have h := ks_final_state k hn a p ha hp
    cases hsw : (ks_signal k hn).switch_to_aspect a with
    | none => rw [hsw] at h; simp at h
    | some ws =>
        rw [hsw] at h
        simp only [Option.map_some'] at h ⊢
        rw [applyWrites_eq_lastWrite]
        rw [Option.some_inj] at h
        rw [h]
        rfl
  · intro k hn a init p
    cases hsw : (ks_signal k hn).switch_to_aspect a <;>
      simp [applyWrites_idem]

theorem C2_witness :
    (hv_main_signal true true).supports_aspect .ProceedSlow = true ∧
    hv_main_present true true HVMainLamp.green = true ∧
    ((hv_main_signal true true).switch_to_aspect .ProceedSlow).map
        (fun ws => applyWrites (fun _ => PinState.low) ws HVMainLamp.green)
      = some (spec_hv_main_lamps .ProceedSlow HVMainLamp.green) :=
  ⟨by decide, by decide,
    C2_exact_lamp_state_idempotent.1 true true .ProceedSlow (by decide)
      (fun _ => PinState.low) HVMainLamp.green (by decide)⟩

/-- Events that transmit bytes over the serial link (the echo and the
response lines, as opposed to pin and storage writes). -/
def event_writes_serial : Event → Bool
  | .echo _ => true
  | .respond_ack _ => true
  | .respond_unsupported => true
  | .respond_parse_error _ => true
  | _ => false

/-- The line "G:1\n" as bytes. -/
def c6_line : List UInt8 := [71, 58, 49, 10]

theorem get_next_command_line_ignored (line : List UInt8)
    (h : (split_first (line.takeWhile (fun c => c ≠ 35))).1 ≠ SIGNAL_ID) :
    get_next_command_line line = .ignored := by
  unfold get_next_command_line
  by_cases he : (line.takeWhile (fun c => c ≠ 35)).isEmpty = true
  · rw [if_pos he]
  · rw [if_neg he, if_pos h]

/-- C6 counterexample: a line addressed to identifier "G" on device "F" does
produce serial output — the main loop echoes every completed line back before
parsing it — although it causes no lamp, persistence, or response-line
activity. -/
theorem C6_counterexample :
    process_line (device_signal_group true true false false) device_ks c6_line
      = ([Event.echo c6_line], false) ∧
    (process_line (device_signal_group true true false false) device_ks
        c6_line).1.filter event_writes_serial ≠ [] := by
  decide

/-- C6 amended: for every line whose leading section differs from the
configured identifier — including blank and comment-only lines — the device
emits nothing beyond the unconditional echo of the received line: no response
line, no lamp pin write, no persistence write, and no panic. -/
theorem C6_amended :
    ∀ (hd hs hr hrep : Bool) (line : List UInt8),
      (split_first ((strip_newline line).takeWhile (fun c => c ≠ 35))).1
          ≠ SIGNAL_ID →
      process_line (device_signal_group hd hs hr hrep) device_ks line
        = ([Event.echo line], false) := by
  intro hd hs hr hrep line h
  unfold process_line
  rw [get_next_command_line_ignored (strip_newline line) h]

theorem C6_amended_witness :
    (split_first ((strip_newline c6_line).takeWhile (fun c => c ≠ 35))).1
        ≠ SIGNAL_ID ∧
    process_line (device_signal_group true true false false) device_ks c6_line
      = ([Event.echo c6_line], false) :=
  ⟨by decide, C6_amended true true false false c6_line (by decide)⟩

theorem pin_writes_after_two (e1 e2 : Event) (rest : List Event)
    (h1 : ∀ p s, e1 ≠ Event.pin_write p s)
    (h2 : ∀ p s, e2 ≠ Event.pin_write p s) :
    ∀ (i : Nat) (p : Pin) (s : PinState),
      (e1 :: e2 :: rest).get? i = some (Event.pin_write p s) → 2 ≤ i := by
  intro i p s hi
  match i with
  | 0 => exact absurd (by simpa using hi) (h1 p s)
  | 1 => exact absurd (by simpa using hi) (h2 p s)
  | n + 2 => omega

/-- C7: whenever a line classifies as a supported main-aspect command, the
main-loop iteration records the persistence write of the aspect's wire
identifier to non-volatile address 0 immediately after the echo and strictly
before every lamp pin write of the transition. -/
theorem C7_persist_before_lamp_writes :
    ∀ (g : HVSignalGroup Pin) (ks : KsSignal Pin) (line : List UInt8)
      (hv : HVMainSignalAspect) (ksA : KsSignalAspect),
      get_next_command_line (strip_newline line) = .command hv ksA →
      g.supports_aspect hv = true →
      ∃ rest,
        (process_line g ks line).1
          = Event.echo line :: Event.eeprom_write 0 hv.command_id :: rest ∧
        ∀ (i : Nat) (p : Pin) (s : PinState),
          (process_line g ks line).1.get? i = some (Event.pin_write p s) →
          2 ≤ i := by
  intro g ks line hv ksA hparse hsupp
  have hevents : ∃ rest,
      (process_line g ks line).1
        = Event.echo line :: Event.eeprom_write 0 hv.command_id :: rest := by
    unfold process_line
    rw [hparse]
    dsimp only
    rw [if_pos hsupp]
    cases hg : g.switch_to_aspect hv with
    | none => exact ⟨[], rfl⟩
    | some gw =>
        cases hk : ks.switch_to_aspect ksA with
        | none => exact ⟨pin_events gw, rfl⟩
        | some kw =>
            exact ⟨pin_events gw ++ pin_events kw
              ++ [Event.respond_ack hv.command_id], rfl⟩
  obtain ⟨rest, hrest⟩ := hevents
  refine ⟨rest, hrest, ?_⟩
  rw [hrest]
  exact pin_writes_after_two _ _ _ (fun p s h => Event.noConfusion h)
    (fun p s h => Event.noConfusion h)

theorem C7_witness :
    get_next_command_line (strip_newline [70, 58, 49, 10])
      = .command .Proceed .Proceed ∧
    (device_signal_group true true false false).supports_aspect .Proceed
      = true ∧
    ∃ rest,
      (process_line (device_signal_group true true false false) device_ks
          [70, 58, 49, 10]).1
        = Event.echo [70, 58, 49, 10]
          :: Event.eeprom_write 0 (HVMainSignalAspect.command_id .Proceed)
          :: rest ∧
      ∀ (i : Nat) (p : Pin) (s : PinState),
        (process_line (device_signal_group true true false false) device_ks
            [70, 58, 49, 10]).1.get? i = some (Event.pin_write p s) →
        2 ≤ i :=
  ⟨by decide, by decide,
    C7_persist_before_lamp_writes (device_signal_group true true false false)
      device_ks [70, 58, 49, 10] .Proceed .Proceed (by decide) (by decide)⟩

/-- C9: for every supported main aspect, the group switch writes the main
signal's lamps first, then the announcement signal's, then the repeater
notice lamp; the derived announcement aspect follows the tabulated mapping;
afterwards every present announcement lamp holds exactly the state of the
derived aspect (never a stale one), and the repeater notice lamp (when
fitted) is lit exactly when the aspect is not Dark. -/
theorem C9_group_switch :
    (HVAnnouncementSignalAspect.from_main .Stop = .ExpectStop ∧
     HVAnnouncementSignalAspect.from_main .Proceed = .ExpectProceed ∧
     HVAnnouncementSignalAspect.from_main .ProceedSlow = .ExpectProceedSlow ∧
     HVAnnouncementSignalAspect.from_main .Deactivated = .Deactivated ∧
     HVAnnouncementSignalAspect.from_main .Dark = .Dark) ∧
    ∀ (hd hs hr hrep : Bool) (a : HVMainSignalAspect),
      (device_signal_group hd hs hr hrep).supports_aspect a = true →
      ordered_by_signal
          ((device_signal_group hd hs hr hrep).switch_to_aspect a) = true ∧
      (∀ p : Pin, is_ann_lamp p = true →
        group_lamp_present hd hs hr hrep p = true →
        ((device_signal_group hd hs hr hrep).switch_to_aspect a).map
            (fun ws => lastWrite? ws p)
          = some (some (spec_group_lamps hr a p))) ∧
      (hrep = true →
        ((device_signal_group hd hs hr hrep).switch_to_aspect a).map
            (fun ws => lastWrite? ws Pin.repeater_notice)
          = some (some (if a = .Dark then PinState.low else PinState.high))) := by
  decide

theorem C9_witness :
    (device_signal_group true true false true).supports_aspect .ProceedSlow
      = true ∧
    is_ann_lamp Pin.d8 = true ∧
    group_lamp_present true true false true Pin.d8 = true ∧
    ((device_signal_group true true false true).switch_to_aspect
        .ProceedSlow).map (fun ws => lastWrite? ws Pin.d8)
      = some (some (spec_group_lamps false .ProceedSlow Pin.d8)) :=
  ⟨by decide, by decide, by decide,
    ((C9_group_switch.2 true true false true .ProceedSlow (by decide)).2.1
      Pin.d8 (by decide) (by decide))⟩

theorem from_command_id_eq (saved : List UInt8) (a : HVMainSignalAspect)
    (h : HVMainSignalAspect.from_command_id saved = some a) :
    saved = a.command_id := by
  unfold HVMainSignalAspect.from_command_id at h
  split at h <;>
    first
      | exact Option.noConfusion h
      | (injection h with h2; subst h2; rfl)

/-- C8: at startup the device first switches the group to Stop (the Stop
trace is a prefix of the boot trace), and ends on the persisted aspect
exactly when the persisted byte is a recognized wire identifier of an aspect
the group supports — otherwise every present lamp ends in the Stop state. -/
theorem C8_boot_stop_then_saved :
    ∀ (hd hs hr : Bool) (saved : List UInt8),
      stop_first (device_signal_group hd hs hr false)
        (boot_events (device_signal_group hd hs hr false) saved) = true ∧
      ∀ p : Pin, group_lamp_present hd hs hr false p = true →
        (boot_events (device_signal_group hd hs hr false) saved).map
            (fun ws => lastWrite? ws p)
          = some (some (spec_group_lamps hr
              (boot_target (device_signal_group hd hs hr false) saved) p)) := by
  intro hd hs hr saved
  cases hsa : HVMainSignalAspect.from_command_id saved with
  | none =>
      have hb : boot_events (device_signal_group hd hs hr false) saved
          = (device_signal_group hd hs hr false).switch_to_aspect .Stop := by
        unfold boot_events
        rw [hsa]
        cases (device_signal_group hd hs hr false).switch_to_aspect .Stop <;>
          rfl
      have ht : boot_target (device_signal_group hd hs hr false) saved
          = .Stop := by
        unfold boot_target
        rw [hsa]
      rw [hb, ht]
      clear hb ht hsa
      revert hd hs hr
      decide
  | some a =>
      have hsaved := from_command_id_eq saved a hsa
      subst hsaved
      clear hsa
      revert hd hs hr a
      decide

theorem C8_witness :
    group_lamp_present true true false false Pin.d3 = true ∧
    (boot_events (device_signal_group true true false false) [50]).map
        (fun ws => lastWrite? ws Pin.d3)
      = some (some (spec_group_lamps false
          (boot_target (device_signal_group true true false false) [50])
          Pin.d3)) :=
  ⟨by decide, (C8_boot_stop_then_saved true true false [50]).2 Pin.d3 (by decide)⟩

end TrainSignalling
